import Mathlib

/-!
Shallow embedding of the VeriFloat repository (verifloat.py, verifloat_fp.py,
verifloat_multi.py, test_cases.py).

Each checker builds a fixed system of linear constraints over symbolic
rational-valued variables, asserts the negation of the bound property, and
asks an external SMT solver whether the conjunction is satisfiable.  We model
a symbolic assignment as a structure of rationals, the constraint list and the
negated-property assertion as predicates on assignments, and the solver's
answer as an abstract `CheckResult` (sat-with-model / unsat / unknown).  The
solver contract is captured by `CheckResult.Answers φ res`: a `sat` answer
carries a model of `φ`, an `unsat` answer certifies that `φ` has no model,
and `unknown` certifies nothing.  Each Python function is then a pure
function from the solver's answer to (printed lines, returned value),
mirroring the source line by line.
-/

/-- Variables of verifloat.py (scenario 1): three weights, three returns. -/
structure Assignment1 where
  w1 : ℚ
  w2 : ℚ
  w3 : ℚ
  r1 : ℚ
  r2 : ℚ
  r3 : ℚ

/-- Variables of verifloat_fp.py (scenario 2): weights, returns, drift. -/
structure Assignment2 where
  w1 : ℚ
  w2 : ℚ
  w3 : ℚ
  r1 : ℚ
  r2 : ℚ
  r3 : ℚ
  epsilon : ℚ

/-- Variables of verifloat_multi.py (scenario 3): shared weights, returns of
two periods. -/
structure Assignment3 where
  w1 : ℚ
  w2 : ℚ
  w3 : ℚ
  r1_1 : ℚ
  r2_1 : ℚ
  r3_1 : ℚ
  r1_2 : ℚ
  r2_2 : ℚ
  r3_2 : ℚ

/-- The answer of `solver.check()`: `sat` with a model, `unsat`, or
`unknown` (timeout / resource exhaustion). -/
inductive CheckResult (α : Type) where
  | sat (m : α)
  | unsat
  | unknown

/-- The solver contract for a query `φ`: a `sat` answer exhibits a model of
`φ`, an `unsat` answer certifies `φ` has no model, `unknown` certifies
nothing. -/
def CheckResult.Answers {α : Type} (φ : α → Prop) : CheckResult α → Prop
  | .sat m => φ m
  | .unsat => ∀ m, ¬ φ m
  | .unknown => True

/-- Python values returned by the checker functions: `None`, a plain string,
or a `(message, model)` pair. -/
inductive PyVal where
  | none
  | str (s : String)
  | tuple1 (s : String) (m : Assignment1)
  | tuple2 (s : String) (m : Assignment2)

/-- A line written to standard output by `print`. -/
inductive Line where
  | str (s : String)
  | tuple1 (s : String) (m : Assignment1)
  | tuple2 (s : String) (m : Assignment2)
  | model3 (m : Assignment3)

/-- `print(v)` for a Python value `v`: `None` prints as the line `None`,
strings print as themselves, tuples print as a tuple line. -/
def printVal : PyVal → Line
  | .none => .str "None"
  | .str s => .str s
  | .tuple1 s m => .tuple1 s m
  | .tuple2 s m => .tuple2 s m

/-- The message component of a checker's returned value. -/
def PyVal.message : PyVal → String
  | .none => "None"
  | .str s => s
  | .tuple1 s _ => s
  | .tuple2 s _ => s

/-- verifloat.py line 9: `portfolio_return = w1*r1 + w2*r2 + w3*r3`. -/
def portfolio_return (a : Assignment1) : ℚ :=
  a.w1 * a.r1 + a.w2 * a.r2 + a.w3 * a.r3

/-- verifloat.py lines 12-20: the constraint list on weights and returns. -/
def constraints1 (a : Assignment1) : Prop :=
  a.w1 ≥ 0 ∧ a.w1 ≤ 1 ∧
  a.w2 ≥ 0 ∧ a.w2 ≤ 1 ∧
  a.w3 ≥ 0 ∧ a.w3 ≤ 1 ∧
  a.w1 + a.w2 + a.w3 ≤ 1 ∧
  a.r1 ≥ -1 ∧ a.r1 ≤ 1 ∧
  a.r2 ≥ -1 ∧ a.r2 ≤ 1 ∧
  a.r3 ≥ -1 ∧ a.r3 ≤ 1

/-- verifloat.py line 25: the negated bound
`Or(portfolio_return < -1, portfolio_return > 1)`. -/
def negated_bound1 (a : Assignment1) : Prop :=
  portfolio_return a < -1 ∨ portfolio_return a > 1

/-- The full query submitted to the solver in verifloat.py (lines 24-25):
constraints conjoined with the negated bound. -/
def query1 (a : Assignment1) : Prop :=
  constraints1 a ∧ negated_bound1 a

/-- verifloat.py lines 27-32, as a function of the solver's answer: on `sat`
return the `(message, model)` pair, otherwise return the property-holds
string.  Nothing is printed by this function itself. -/
def verify_portfolio_return (result : CheckResult Assignment1) :
    List Line × PyVal :=
  match result with
  | .sat m => ([], .tuple1 "Violation found!" m)
  | _ => ([], .str "Property holds: Portfolio return within [-1, 1]")

/-- verifloat_fp.py line 10:
`portfolio_return = w1*r1 + w2*r2 + w3*r3 + epsilon`. -/
def portfolio_return_fp (a : Assignment2) : ℚ :=
  a.w1 * a.r1 + a.w2 * a.r2 + a.w3 * a.r3 + a.epsilon

/-- verifloat_fp.py lines 12-21: weight/return constraints plus the drift
bound `epsilon >= -0.001, epsilon <= 0.001` (the Python literal `0.001`
becomes the exact rational 1/1000 in the solver). -/
def constraints2 (a : Assignment2) : Prop :=
  a.w1 ≥ 0 ∧ a.w1 ≤ 1 ∧
  a.w2 ≥ 0 ∧ a.w2 ≤ 1 ∧
  a.w3 ≥ 0 ∧ a.w3 ≤ 1 ∧
  a.w1 + a.w2 + a.w3 ≤ 1 ∧
  a.r1 ≥ -1 ∧ a.r1 ≤ 1 ∧
  a.r2 ≥ -1 ∧ a.r2 ≤ 1 ∧
  a.r3 ≥ -1 ∧ a.r3 ≤ 1 ∧
  a.epsilon ≥ -(1/1000) ∧ a.epsilon ≤ 1/1000

/-- verifloat_fp.py line 25: the negated bound. -/
def negated_bound2 (a : Assignment2) : Prop :=
  portfolio_return_fp a < -1 ∨ portfolio_return_fp a > 1

/-- The full query submitted to the solver in verifloat_fp.py (lines 24-25). -/
def query2 (a : Assignment2) : Prop :=
  constraints2 a ∧ negated_bound2 a

/-- verifloat_fp.py lines 27-32, as a function of the solver's answer. -/
def verify_portfolio_with_fp_error (result : CheckResult Assignment2) :
    List Line × PyVal :=
  match result with
  | .sat m => ([], .tuple2 "Violation with numerical drift!" m)
  | _ => ([], .str "Property holds even under small numerical errors.")

/-- verifloat_multi.py lines 23-27: per-period returns and their sum. -/
def period1_return (a : Assignment3) : ℚ :=
  a.w1 * a.r1_1 + a.w2 * a.r2_1 + a.w3 * a.r3_1

def period2_return (a : Assignment3) : ℚ :=
  a.w1 * a.r1_2 + a.w2 * a.r2_2 + a.w3 * a.r3_2

def total_return (a : Assignment3) : ℚ :=
  period1_return a + period2_return a

/-- verifloat_multi.py lines 12-20: weight constraints plus `[-1, 1]` bounds
on each of the six per-period returns. -/
def constraints3 (a : Assignment3) : Prop :=
  a.w1 ≥ 0 ∧ a.w1 ≤ 1 ∧
  a.w2 ≥ 0 ∧ a.w2 ≤ 1 ∧
  a.w3 ≥ 0 ∧ a.w3 ≤ 1 ∧
  a.w1 + a.w2 + a.w3 ≤ 1 ∧
  a.r1_1 ≥ -1 ∧ a.r1_1 ≤ 1 ∧
  a.r2_1 ≥ -1 ∧ a.r2_1 ≤ 1 ∧
  a.r3_1 ≥ -1 ∧ a.r3_1 ≤ 1 ∧
  a.r1_2 ≥ -1 ∧ a.r1_2 ≤ 1 ∧
  a.r2_2 ≥ -1 ∧ a.r2_2 ≤ 1 ∧
  a.r3_2 ≥ -1 ∧ a.r3_2 ≤ 1

/-- verifloat_multi.py line 31: `Or(total_return < -2, total_return > 2)`. -/
def negated_bound3 (a : Assignment3) : Prop :=
  total_return a < -2 ∨ total_return a > 2

/-- The full query submitted to the solver in verifloat_multi.py
(lines 30-31). -/
def query3 (a : Assignment3) : Prop :=
  constraints3 a ∧ negated_bound3 a

/-- verifloat_multi.py lines 33-39, as a function of the solver's answer:
this checker prints its verdict (and, on `sat`, the model) itself and the
function body has no `return`, so the returned Python value is `None` on
every path. -/
def verify_two_period_portfolio (result : CheckResult Assignment3) :
    List Line × PyVal :=
  match result with
  | .sat m =>
      ([.str "Violation found in multi-period model!", .model3 m], .none)
  | _ => ([.str "Multi-period portfolio return is consistent."], .none)

/-- test_cases.py lines 5-13: print a header then `print(checker())` for each
of the three scenarios in order.  `print(f())` first emits whatever `f`
itself prints, then one line for `f`'s returned value. -/
def run_all_tests (result1 : CheckResult Assignment1)
    (result2 : CheckResult Assignment2) (result3 : CheckResult Assignment3) :
    List Line :=
  let v1 := verify_portfolio_return result1
  let v2 := verify_portfolio_with_fp_error result2
  let v3 := verify_two_period_portfolio result3
  [Line.str "\nRunning Basic Portfolio Return Test:"] ++ v1.1 ++ [printVal v1.2] ++
  [Line.str "\nRunning Floating-Point Drift Test:"] ++ v2.1 ++ [printVal v2.2] ++
  [Line.str "\nRunning Multi-Period Portfolio Return Test:"] ++ v3.1 ++ [printVal v3.2]

instance (a : Assignment1) : Decidable (constraints1 a) := by
  unfold constraints1; infer_instance

instance (a : Assignment2) : Decidable (constraints2 a) := by
  unfold constraints2; infer_instance

instance (a : Assignment3) : Decidable (constraints3 a) := by
  unfold constraints3; infer_instance

instance (a : Assignment1) : Decidable (negated_bound1 a) := by
  unfold negated_bound1; infer_instance

instance (a : Assignment2) : Decidable (negated_bound2 a) := by
  unfold negated_bound2; infer_instance

instance (a : Assignment3) : Decidable (negated_bound3 a) := by
  unfold negated_bound3; infer_instance

instance (a : Assignment1) : Decidable (query1 a) := by
  unfold query1; infer_instance

instance (a : Assignment2) : Decidable (query2 a) := by
  unfold query2; infer_instance

instance (a : Assignment3) : Decidable (query3 a) := by
  unfold query3; infer_instance

/-- The satisfying assignment of scenario 2's query: fully invested in asset
1, asset 1 returns 100%, drift at its positive extreme. -/
def driftWitness : Assignment2 :=
  { w1 := 1, w2 := 0, w3 := 0, r1 := 1, r2 := 0, r3 := 0, epsilon := 1/1000 }

/-- The assignment attaining the negative extreme -1.001 in scenario 2. -/
def driftWitnessNeg : Assignment2 :=
  { w1 := 1, w2 := 0, w3 := 0, r1 := -1, r2 := 0, r3 := 0, epsilon := -(1/1000) }

/-- Scenario 3's equality case: w = [1,0,0] and asset 1 returning 100% in
both periods, giving total return exactly 2. -/
def equalityCase : Assignment3 :=
  { w1 := 1, w2 := 0, w3 := 0,
    r1_1 := 1, r2_1 := 0, r3_1 := 0,
    r1_2 := 1, r2_2 := 0, r3_2 := 0 }

/-- Scenario 2's query is satisfied by `driftWitness`: all constraints hold
and the return expression evaluates to 1.001 > 1. -/
lemma query2_driftWitness : query2 driftWitness := by
  norm_num [query2, constraints2, negated_bound2, portfolio_return_fp,
    driftWitness]

lemma constraints2_driftWitness : constraints2 driftWitness := by
  norm_num [constraints2, driftWitness]

lemma constraints2_driftWitnessNeg : constraints2 driftWitnessNeg := by
  norm_num [constraints2, driftWitnessNeg]

lemma portfolio_return_fp_driftWitness :
    portfolio_return_fp driftWitness = 1001/1000 := by
  norm_num [portfolio_return_fp, driftWitness]

lemma portfolio_return_fp_driftWitnessNeg :
    portfolio_return_fp driftWitnessNeg = -(1001/1000) := by
  norm_num [portfolio_return_fp, driftWitnessNeg]

lemma constraints3_equalityCase : constraints3 equalityCase := by
  norm_num [constraints3, equalityCase]

lemma total_return_equalityCase : total_return equalityCase = 2 := by
  norm_num [total_return, period1_return, period2_return, equalityCase]

/-- A weight in `[0, 1]` times a return in `[-1, 1]` lies in `[-w, w]`. -/
lemma weighted_term_bounds {w r : ℚ} (hw0 : 0 ≤ w) (hrl : -1 ≤ r)
    (hru : r ≤ 1) : -w ≤ w * r ∧ w * r ≤ w := by
  constructor
  · nlinarith
  · nlinarith

/-- Scenario 1's mathematical content: under the declared constraints the
portfolio return lies in `[-1, 1]`. -/
lemma portfolio_return_bounds (a : Assignment1) (h : constraints1 a) :
    -1 ≤ portfolio_return a ∧ portfolio_return a ≤ 1 := by
  obtain ⟨hw10, hw11, hw20, hw21, hw30, hw31, hsum,
    hr1l, hr1u, hr2l, hr2u, hr3l, hr3u⟩ := h
  obtain ⟨h1l, h1u⟩ := weighted_term_bounds hw10 hr1l hr1u
  obtain ⟨h2l, h2u⟩ := weighted_term_bounds hw20 hr2l hr2u
  obtain ⟨h3l, h3u⟩ := weighted_term_bounds hw30 hr3l hr3u
  unfold portfolio_return
  constructor
  · linarith
  · linarith

/-- Scenario 1's query (constraints plus negated bound) has no model. -/
lemma query1_unsat : ∀ a, ¬ query1 a := by
  intro a ⟨hc, hn⟩
  obtain ⟨hl, hu⟩ := portfolio_return_bounds a hc
  cases hn with
  | inl h => linarith
  | inr h => linarith

/-- Scenario 2's mathematical content: under the declared constraints the
drifted return lies in `[-1.001, 1.001]`. -/
lemma portfolio_return_fp_bounds (a : Assignment2) (h : constraints2 a) :
    -(1001/1000) ≤ portfolio_return_fp a ∧
      portfolio_return_fp a ≤ 1001/1000 := by
  obtain ⟨hw10, hw11, hw20, hw21, hw30, hw31, hsum,
    hr1l, hr1u, hr2l, hr2u, hr3l, hr3u, hel, heu⟩ := h
  obtain ⟨h1l, h1u⟩ := weighted_term_bounds hw10 hr1l hr1u
  obtain ⟨h2l, h2u⟩ := weighted_term_bounds hw20 hr2l hr2u
  obtain ⟨h3l, h3u⟩ := weighted_term_bounds hw30 hr3l hr3u
  unfold portfolio_return_fp
  constructor
  · linarith
  · linarith

/-- Scenario 3's mathematical content: under the declared constraints the
two-period total return lies in `[-2, 2]`. -/
lemma total_return_bounds (a : Assignment3) (h : constraints3 a) :
    -2 ≤ total_return a ∧ total_return a ≤ 2 := by
  obtain ⟨hw10, hw11, hw20, hw21, hw30, hw31, hsum,
    h11l, h11u, h21l, h21u, h31l, h31u,
    h12l, h12u, h22l, h22u, h32l, h32u⟩ := h
  obtain ⟨p11l, p11u⟩ := weighted_term_bounds hw10 h11l h11u
  obtain ⟨p21l, p21u⟩ := weighted_term_bounds hw20 h21l h21u
  obtain ⟨p31l, p31u⟩ := weighted_term_bounds hw30 h31l h31u
  obtain ⟨p12l, p12u⟩ := weighted_term_bounds hw10 h12l h12u
  obtain ⟨p22l, p22u⟩ := weighted_term_bounds hw20 h22l h22u
  obtain ⟨p32l, p32u⟩ := weighted_term_bounds hw30 h32l h32u
  unfold total_return period1_return period2_return
  constructor
  · linarith
  · linarith

/-- Scenario 3's query (constraints plus negated bound) has no model. -/
lemma query3_unsat : ∀ a, ¬ query3 a := by
  intro a ⟨hc, hn⟩
  obtain ⟨hl, hu⟩ := total_return_bounds a hc
  cases hn with
  | inl h => linarith
  | inr h => linarith

/-- A non-`unknown` answer obeying the solver contract is either `sat` with
a model of the query or `unsat` with the query unsatisfiable. -/
lemma answers_cases {α : Type} {φ : α → Prop} {res : CheckResult α}
    (h : res.Answers φ) (hu : res ≠ CheckResult.unknown) :
    (∃ m, res = CheckResult.sat m ∧ φ m) ∨
      (res = CheckResult.unsat ∧ ∀ m, ¬ φ m) := by
  cases res with
  | sat m => exact Or.inl ⟨m, rfl, h⟩
  | unsat => exact Or.inr ⟨rfl, h⟩
  | unknown => exact absurd rfl hu

/-- Claim C3: scenario 1's bound holds universally, so its query is
unsatisfiable and the checker returns the property-holds message on any
non-`unknown` solver answer obeying the contract. -/
theorem scenario1_property_holds (result : CheckResult Assignment1)
    (h : result.Answers query1) (hu : result ≠ CheckResult.unknown) :
    (∀ a, constraints1 a → -1 ≤ portfolio_return a ∧ portfolio_return a ≤ 1) ∧
    verify_portfolio_return result =
      ([], PyVal.str "Property holds: Portfolio return within [-1, 1]") := by
  refine ⟨portfolio_return_bounds, ?_⟩
  rcases answers_cases h hu with ⟨m, hm, hq⟩ | ⟨hm, _⟩
  · exact absurd hq (query1_unsat m)
  · rw [hm]
    rfl

theorem scenario1_property_holds_witness :
    CheckResult.Answers query1 (CheckResult.unsat : CheckResult Assignment1) ∧
    ((∀ a, constraints1 a →
        -1 ≤ portfolio_return a ∧ portfolio_return a ≤ 1) ∧
      verify_portfolio_return CheckResult.unsat =
        ([], PyVal.str "Property holds: Portfolio return within [-1, 1]")) :=
  ⟨query1_unsat,
    scenario1_property_holds CheckResult.unsat query1_unsat
      (fun hc => nomatch hc)⟩

/-- Claim C1 counterexample: at the admissible assignment `driftWitness`
(w = (1,0,0), r = (1,0,0), epsilon = 0.001) the drifted return is
1.001 > 1, so scenario 2's return expression does not always lie in
`[-1, 1]`, and on the resulting `sat` answer the checker returns its
violation pair, not the property-holds message. -/
theorem scenario2_claim_false :
    constraints2 driftWitness ∧
    portfolio_return_fp driftWitness = 1001/1000 ∧
    ¬ portfolio_return_fp driftWitness ≤ 1 ∧
    verify_portfolio_with_fp_error (CheckResult.sat driftWitness) =
      ([], PyVal.tuple2 "Violation with numerical drift!" driftWitness) := by
  refine ⟨constraints2_driftWitness, portfolio_return_fp_driftWitness, ?_, rfl⟩
  rw [portfolio_return_fp_driftWitness]
  norm_num

/-- Claim C1 amended: scenario 2's query is satisfiable, so any
non-`unknown` solver answer obeying the contract is `sat` and
`verify_portfolio_with_fp_error` returns its violation message together
with a model. -/
theorem scenario2_reports_violation (result : CheckResult Assignment2)
    (h : result.Answers query2) (hu : result ≠ CheckResult.unknown) :
    ∃ m, result = CheckResult.sat m ∧
      verify_portfolio_with_fp_error result =
        ([], PyVal.tuple2 "Violation with numerical drift!" m) := by
  rcases answers_cases h hu with ⟨m, hm, _⟩ | ⟨_, hunsat⟩
  · exact ⟨m, hm, by rw [hm]; rfl⟩

  · exact absurd query2_driftWitness (hunsat driftWitness)

theorem scenario2_reports_violation_witness :
    CheckResult.Answers query2 (CheckResult.sat driftWitness) ∧
    ∃ m, CheckResult.sat driftWitness = CheckResult.sat m ∧
      verify_portfolio_with_fp_error (CheckResult.sat driftWitness) =
        ([], PyVal.tuple2 "Violation with numerical drift!" m) :=
  ⟨query2_driftWitness,
    scenario2_reports_violation (CheckResult.sat driftWitness)
      query2_driftWitness (fun hc => nomatch hc)⟩

/-- Claim C2: an `unknown` solver answer is not surfaced as a distinct
verdict; each checker's `if result == sat` / `else` branch reports the
`unknown` case with its property-holds message. -/
theorem unknown_reported_as_property_holds :
    verify_portfolio_return CheckResult.unknown =
      ([], PyVal.str "Property holds: Portfolio return within [-1, 1]") ∧
    verify_portfolio_with_fp_error CheckResult.unknown =
      ([], PyVal.str "Property holds even under small numerical errors.") ∧
    verify_two_period_portfolio CheckResult.unknown =
      ([Line.str "Multi-period portfolio return is consistent."],
        PyVal.none) :=
  ⟨rfl, rfl, rfl⟩

/-- Claim C4: scenario 3's total return always lies in `[-2, 2]`, the
equality case w = (1,0,0) with asset 1 returning 100% in both periods
attains exactly 2 without violating the negated bound, and on any
non-`unknown` contract-obeying solver answer the checker prints its
property-holds line and returns `None`. -/
theorem scenario3_property_holds (result : CheckResult Assignment3)
    (h : result.Answers query3) (hu : result ≠ CheckResult.unknown) :
    (∀ a, constraints3 a → -2 ≤ total_return a ∧ total_return a ≤ 2) ∧
    (constraints3 equalityCase ∧ total_return equalityCase = 2 ∧
      ¬ negated_bound3 equalityCase) ∧
    verify_two_period_portfolio result =
      ([Line.str "Multi-period portfolio return is consistent."],
        PyVal.none) := by
  refine ⟨total_return_bounds, ⟨constraints3_equalityCase,
    total_return_equalityCase, ?_⟩, ?_⟩
  · unfold negated_bound3
    rw [total_return_equalityCase]
    norm_num
  · rcases answers_cases h hu with ⟨m, hm, hq⟩ | ⟨hm, _⟩
    · exact absurd hq (query3_unsat m)
    · rw [hm]
      rfl

theorem scenario3_property_holds_witness :
    CheckResult.Answers query3 (CheckResult.unsat : CheckResult Assignment3) ∧
    ((∀ a, constraints3 a → -2 ≤ total_return a ∧ total_return a ≤ 2) ∧
      (constraints3 equalityCase ∧ total_return equalityCase = 2 ∧
        ¬ negated_bound3 equalityCase) ∧
      verify_two_period_portfolio CheckResult.unsat =
        ([Line.str "Multi-period portfolio return is consistent."],
          PyVal.none)) :=
  ⟨query3_unsat,
    scenario3_property_holds CheckResult.unsat query3_unsat
      (fun hc => nomatch hc)⟩

/-- Claim C5: under the solver contract, whenever a checker reports its
violation verdict the accompanying model satisfies every declared constraint
of its scenario and pushes the return expression strictly outside the bound;
a model accompanies only the violation message. -/
theorem counterexample_validity
    (result1 : CheckResult Assignment1) (result2 : CheckResult Assignment2)
    (result3 : CheckResult Assignment3)
    (h1 : result1.Answers query1) (h2 : result2.Answers query2)
    (h3 : result3.Answers query3) :
    (∀ s m, (verify_portfolio_return result1).2 = PyVal.tuple1 s m →
      s = "Violation found!" ∧ constraints1 m ∧
        (portfolio_return m < -1 ∨ portfolio_return m > 1)) ∧
    (∀ s m, (verify_portfolio_with_fp_error result2).2 = PyVal.tuple2 s m →
      s = "Violation with numerical drift!" ∧ constraints2 m ∧
        (portfolio_return_fp m < -1 ∨ portfolio_return_fp m > 1)) ∧
    (∀ m, Line.model3 m ∈ (verify_two_period_portfolio result3).1 →
      constraints3 m ∧ (total_return m < -2 ∨ total_return m > 2)) := by
  refine ⟨?_, ?_, ?_⟩
  · intro s m heq
    cases result1 with
    | sat m0 =>
        obtain ⟨hs, hm⟩ := PyVal.tuple1.inj heq
        subst hs
        subst hm
        exact ⟨rfl, h1.1, h1.2⟩
    | unsat => exact PyVal.noConfusion heq
    | unknown => exact PyVal.noConfusion heq
  · intro s m heq
    cases result2 with
    | sat m0 =>
        obtain ⟨hs, hm⟩ := PyVal.tuple2.inj heq
        subst hs
        subst hm
        exact ⟨rfl, h2.1, h2.2⟩
    | unsat => exact PyVal.noConfusion heq
    | unknown => exact PyVal.noConfusion heq
  · intro m hm
    cases result3 with
    | sat m0 =>
        simp only [verify_two_period_portfolio, List.mem_cons,
          List.mem_singleton, List.not_mem_nil, or_false] at hm
        rcases hm with hm | hm
        · exact Line.noConfusion hm
        · obtain hmm := Line.model3.inj hm
          subst hmm
          exact ⟨h3.1, h3.2⟩
    | unsat =>
        simp only [verify_two_period_portfolio, List.mem_singleton] at hm
        exact Line.noConfusion hm
    | unknown =>
        simp only [verify_two_period_portfolio, List.mem_singleton] at hm
        exact Line.noConfusion hm

theorem counterexample_validity_witness :
    CheckResult.Answers query2 (CheckResult.sat driftWitness) ∧
    (∀ s m,
      (verify_portfolio_with_fp_error (CheckResult.sat driftWitness)).2 =
          PyVal.tuple2 s m →
        s = "Violation with numerical drift!" ∧ constraints2 m ∧
          (portfolio_return_fp m < -1 ∨ portfolio_return_fp m > 1)) :=
  ⟨query2_driftWitness,
    (counterexample_validity CheckResult.unsat
      (CheckResult.sat driftWitness) CheckResult.unsat
      query1_unsat query2_driftWitness query3_unsat).2.1⟩

/-- Claim C6: each checker decides the bound property by the
negate-and-search idiom.  The query it submits is the conjunction of the
declared constraints with the disjunctive negated bound, and under the
solver contract the violation verdict is returned exactly when that query is
satisfiable, the property-holds verdict exactly when it is unsatisfiable. -/
theorem negate_and_search_decides
    (result1 : CheckResult Assignment1) (result2 : CheckResult Assignment2)
    (result3 : CheckResult Assignment3)
    (h1 : result1.Answers query1) (h2 : result2.Answers query2)
    (h3 : result3.Answers query3)
    (hu1 : result1 ≠ CheckResult.unknown)
    (hu2 : result2 ≠ CheckResult.unknown)
    (hu3 : result3 ≠ CheckResult.unknown) :
    (∀ a, query1 a ↔ constraints1 a ∧
      (portfolio_return a < -1 ∨ portfolio_return a > 1)) ∧
    ((∃ m, (verify_portfolio_return result1).2 =
        PyVal.tuple1 "Violation found!" m) ↔ ∃ a, query1 a) ∧
    ((verify_portfolio_return result1).2 =
        PyVal.str "Property holds: Portfolio return within [-1, 1]" ↔
      ¬ ∃ a, query1 a) ∧
    ((∃ m, (verify_portfolio_with_fp_error result2).2 =
        PyVal.tuple2 "Violation with numerical drift!" m) ↔ ∃ a, query2 a) ∧
    ((verify_portfolio_with_fp_error result2).2 =
        PyVal.str "Property holds even under small numerical errors." ↔
      ¬ ∃ a, query2 a) ∧
    ((Line.str "Violation found in multi-period model!" ∈
        (verify_two_period_portfolio result3).1) ↔ ∃ a, query3 a) ∧
    ((Line.str "Multi-period portfolio return is consistent." ∈
        (verify_two_period_portfolio result3).1) ↔ ¬ ∃ a, query3 a) := by
  refine ⟨fun a => Iff.rfl, ?_, ?_, ?_, ?_, ?_, ?_⟩
  · rcases answers_cases h1 hu1 with ⟨m, hm, hq⟩ | ⟨hm, hq⟩
    · subst hm
      exact iff_of_true ⟨m, rfl⟩ ⟨m, hq⟩
    · subst hm
      refine iff_of_false ?_ ?_
      · rintro ⟨m, hm⟩
        exact PyVal.noConfusion hm
      · rintro ⟨a, ha⟩
        exact hq a ha
  · rcases answers_cases h1 hu1 with ⟨m, hm, hq⟩ | ⟨hm, hq⟩
    · subst hm
      refine iff_of_false (fun hc => PyVal.noConfusion hc) ?_
      intro hc
      exact hc ⟨m, hq⟩
    · subst hm
      refine iff_of_true rfl ?_
      rintro ⟨a, ha⟩
      exact hq a ha
  · rcases answers_cases h2 hu2 with ⟨m, hm, hq⟩ | ⟨hm, hq⟩
    · subst hm
      exact iff_of_true ⟨m, rfl⟩ ⟨m, hq⟩
    · subst hm
      refine iff_of_false ?_ ?_
      · rintro ⟨m, hm⟩
        exact PyVal.noConfusion hm
      · rintro ⟨a, ha⟩
        exact hq a ha
  · rcases answers_cases h2 hu2 with ⟨m, hm, hq⟩ | ⟨hm, hq⟩
    · subst hm
      refine iff_of_false (fun hc => PyVal.noConfusion hc) ?_
      intro hc
      exact hc ⟨m, hq⟩
    · subst hm
      refine iff_of_true rfl ?_
      rintro ⟨a, ha⟩
      exact hq a ha
  · rcases answers_cases h3 hu3 with ⟨m, hm, hq⟩ | ⟨hm, hq⟩
    · subst hm
      exact iff_of_true (List.mem_cons_self _ _) ⟨m, hq⟩
    · subst hm
      refine iff_of_false ?_ ?_
      · intro hc
        simp only [verify_two_period_portfolio, List.mem_singleton] at hc
        obtain hs := Line.str.inj hc
        exact absurd hs (by decide)
      · rintro ⟨a, ha⟩
        exact hq a ha
  · rcases answers_cases h3 hu3 with ⟨m, hm, hq⟩ | ⟨hm, hq⟩
    · subst hm
      refine iff_of_false ?_ ?_
      · intro hc
        simp only [verify_two_period_portfolio, List.mem_cons,
          List.mem_singleton, List.not_mem_nil, or_false] at hc
        rcases hc with hc | hc
        · exact absurd (Line.str.inj hc) (by decide)
        · exact Line.noConfusion hc
      · intro hc
        exact hc ⟨m, hq⟩
    · subst hm
      refine iff_of_true (List.mem_singleton.mpr rfl) ?_
      rintro ⟨a, ha⟩
      exact hq a ha

theorem negate_and_search_decides_witness :
    CheckResult.Answers query2 (CheckResult.sat driftWitness) ∧
    ((∃ m, (verify_portfolio_with_fp_error
        (CheckResult.sat driftWitness)).2 =
          PyVal.tuple2 "Violation with numerical drift!" m) ↔
      ∃ a, query2 a) :=
  ⟨query2_driftWitness,
    (negate_and_search_decides CheckResult.unsat
      (CheckResult.sat driftWitness) CheckResult.unsat
      query1_unsat query2_driftWitness query3_unsat
      (fun hc => nomatch hc) (fun hc => nomatch hc)
      (fun hc => nomatch hc)).2.2.2.1⟩

/-- Claim C7: each checker is a pure function of a fresh per-call solver
session, so two invocations whose solver answers obey the contract (and are
not `unknown`) produce the identical verdict: the same returned message for
the first two checkers, the same leading verdict line for the third. -/
theorem checker_verdict_deterministic
    (result1 altResult1 : CheckResult Assignment1)
    (result2 altResult2 : CheckResult Assignment2)
    (result3 altResult3 : CheckResult Assignment3)
    (h1 : result1.Answers query1) (h1a : altResult1.Answers query1)
    (h2 : result2.Answers query2) (h2a : altResult2.Answers query2)
    (h3 : result3.Answers query3) (h3a : altResult3.Answers query3)
    (hu1 : result1 ≠ CheckResult.unknown)
    (hu1a : altResult1 ≠ CheckResult.unknown)
    (hu2 : result2 ≠ CheckResult.unknown)
    (hu2a : altResult2 ≠ CheckResult.unknown)
    (hu3 : result3 ≠ CheckResult.unknown)
    (hu3a : altResult3 ≠ CheckResult.unknown) :
    ((verify_portfolio_return result1).2).message =
      ((verify_portfolio_return altResult1).2).message ∧
    ((verify_portfolio_with_fp_error result2).2).message =
      ((verify_portfolio_with_fp_error altResult2).2).message ∧
    (verify_two_period_portfolio result3).1.head? =
      (verify_two_period_portfolio altResult3).1.head? := by
  refine ⟨?_, ?_, ?_⟩
  · rcases answers_cases h1 hu1 with ⟨m, hm, hq⟩ | ⟨hm, hq⟩ <;>
      rcases answers_cases h1a hu1a with ⟨m', hm', hq'⟩ | ⟨hm', hq'⟩ <;>
      subst hm <;> subst hm'
    · rfl
    · exact absurd hq (hq' m)
    · exact absurd hq' (hq m')
    · rfl
  · rcases answers_cases h2 hu2 with ⟨m, hm, hq⟩ | ⟨hm, hq⟩ <;>
      rcases answers_cases h2a hu2a with ⟨m', hm', hq'⟩ | ⟨hm', hq'⟩ <;>
      subst hm <;> subst hm'
    · rfl
    · exact absurd hq (hq' m)
    · exact absurd hq' (hq m')
    · rfl
  · rcases answers_cases h3 hu3 with ⟨m, hm, hq⟩ | ⟨hm, hq⟩ <;>
      rcases answers_cases h3a hu3a with ⟨m', hm', hq'⟩ | ⟨hm', hq'⟩ <;>
      subst hm <;> subst hm'
    · rfl
    · exact absurd hq (hq' m)
    · exact absurd hq' (hq m')
    · rfl

theorem checker_verdict_deterministic_witness :
    CheckResult.Answers query2 (CheckResult.sat driftWitness) ∧
    (((verify_portfolio_return
        (CheckResult.unsat : CheckResult Assignment1)).2).message =
        ((verify_portfolio_return CheckResult.unsat).2).message ∧
      ((verify_portfolio_with_fp_error
          (CheckResult.sat driftWitness)).2).message =
        ((verify_portfolio_with_fp_error
          (CheckResult.sat driftWitness)).2).message ∧
      (verify_two_period_portfolio
          (CheckResult.unsat : CheckResult Assignment3)).1.head? =
        (verify_two_period_portfolio CheckResult.unsat).1.head?) :=
  ⟨query2_driftWitness,
    checker_verdict_deterministic CheckResult.unsat CheckResult.unsat
      (CheckResult.sat driftWitness) (CheckResult.sat driftWitness)
      CheckResult.unsat CheckResult.unsat
      query1_unsat query1_unsat query2_driftWitness query2_driftWitness
      query3_unsat query3_unsat
      (fun hc => nomatch hc) (fun hc => nomatch hc) (fun hc => nomatch hc)
      (fun hc => nomatch hc) (fun hc => nomatch hc) (fun hc => nomatch hc)⟩

/-- Claim C8: the zero-argument entry point, given per-scenario solver
answers obeying the contract and not `unknown`, runs the three scenarios in
the fixed order single-period, drift, two-period, and emits each scenario's
header followed by its verdict line — scenario 2's verdict being the
violation pair with some model. -/
theorem run_all_tests_output
    (result1 : CheckResult Assignment1) (result2 : CheckResult Assignment2)
    (result3 : CheckResult Assignment3)
    (h1 : result1.Answers query1) (h2 : result2.Answers query2)
    (h3 : result3.Answers query3)
    (hu1 : result1 ≠ CheckResult.unknown)
    (hu2 : result2 ≠ CheckResult.unknown)
    (hu3 : result3 ≠ CheckResult.unknown) :
    ∃ m, result2 = CheckResult.sat m ∧
      run_all_tests result1 result2 result3 =
        [Line.str "\nRunning Basic Portfolio Return Test:",
         Line.str "Property holds: Portfolio return within [-1, 1]",
         Line.str "\nRunning Floating-Point Drift Test:",
         Line.tuple2 "Violation with numerical drift!" m,
         Line.str "\nRunning Multi-Period Portfolio Return Test:",
         Line.str "Multi-period portfolio return is consistent.",
         Line.str "None"] := by
  rcases answers_cases h1 hu1 with ⟨m1, hm1, hq1⟩ | ⟨hm1, _⟩
  · exact absurd hq1 (query1_unsat m1)
  rcases answers_cases h2 hu2 with ⟨m2, hm2, _⟩ | ⟨_, hq2⟩
  swap
  · exact absurd query2_driftWitness (hq2 driftWitness)
  rcases answers_cases h3 hu3 with ⟨m3, hm3, hq3⟩ | ⟨hm3, _⟩
  · exact absurd hq3 (query3_unsat m3)
  subst hm1
  subst hm2
  subst hm3
  exact ⟨m2, rfl, rfl⟩

theorem run_all_tests_output_witness :
    CheckResult.Answers query2 (CheckResult.sat driftWitness) ∧
    ∃ m, (CheckResult.sat driftWitness : CheckResult Assignment2) =
        CheckResult.sat m ∧
      run_all_tests CheckResult.unsat (CheckResult.sat driftWitness)
          CheckResult.unsat =
        [Line.str "\nRunning Basic Portfolio Return Test:",
         Line.str "Property holds: Portfolio return within [-1, 1]",
         Line.str "\nRunning Floating-Point Drift Test:",
         Line.tuple2 "Violation with numerical drift!" m,
         Line.str "\nRunning Multi-Period Portfolio Return Test:",
         Line.str "Multi-period portfolio return is consistent.",
         Line.str "None"] :=
  ⟨query2_driftWitness,
    run_all_tests_output CheckResult.unsat (CheckResult.sat driftWitness)
      CheckResult.unsat query1_unsat query2_driftWitness query3_unsat
      (fun hc => nomatch hc) (fun hc => nomatch hc) (fun hc => nomatch hc)⟩

/-- Claim C9: the two-period checker prints its verdict itself and returns
the Python value `None` on every path, while the other two checkers print
nothing and return a non-`None` value; consequently `run_all_tests`, which
prints each checker's return value, emits the extra line `None` right after
the two-period scenario's own output. -/
theorem multi_checker_returns_none
    (result1 : CheckResult Assignment1) (result2 : CheckResult Assignment2)
    (result3 : CheckResult Assignment3) :
    (verify_portfolio_return result1).1 = [] ∧
    (verify_portfolio_return result1).2 ≠ PyVal.none ∧
    (verify_portfolio_with_fp_error result2).1 = [] ∧
    (verify_portfolio_with_fp_error result2).2 ≠ PyVal.none ∧
    (verify_two_period_portfolio result3).2 = PyVal.none ∧
    run_all_tests result1 result2 result3 =
      [Line.str "\nRunning Basic Portfolio Return Test:",
       printVal (verify_portfolio_return result1).2,
       Line.str "\nRunning Floating-Point Drift Test:",
       printVal (verify_portfolio_with_fp_error result2).2,
       Line.str "\nRunning Multi-Period Portfolio Return Test:"] ++
      (verify_two_period_portfolio result3).1 ++ [Line.str "None"] := by
  cases result1 <;> cases result2 <;> cases result3 <;>
    exact ⟨rfl, fun hc => PyVal.noConfusion hc, rfl,
      fun hc => PyVal.noConfusion hc, rfl, rfl⟩

/-- Claim C10: under scenario 2's declared constraints the drifted return
lies in `[-1.001, 1.001]`; any violation of the `[-1, 1]` bound therefore
exceeds it by at most 0.001, and both extremes ±1.001 are attained by
admissible assignments. -/
theorem drift_return_tight_bounds :
    (∀ a, constraints2 a →
      -(1001/1000) ≤ portfolio_return_fp a ∧
        portfolio_return_fp a ≤ 1001/1000) ∧
    (∀ a, constraints2 a → portfolio_return_fp a > 1 →
      portfolio_return_fp a - 1 ≤ 1/1000) ∧
    (∀ a, constraints2 a → portfolio_return_fp a < -1 →
      -1 - portfolio_return_fp a ≤ 1/1000) ∧
    (constraints2 driftWitness ∧
      portfolio_return_fp driftWitness = 1001/1000) ∧
    (constraints2 driftWitnessNeg ∧
      portfolio_return_fp driftWitnessNeg = -(1001/1000)) := by
  refine ⟨portfolio_return_fp_bounds, ?_, ?_,
    ⟨constraints2_driftWitness, portfolio_return_fp_driftWitness⟩,
    ⟨constraints2_driftWitnessNeg, portfolio_return_fp_driftWitnessNeg⟩⟩
  · intro a ha _
    obtain ⟨_, hb⟩ := portfolio_return_fp_bounds a ha
    linarith
  · intro a ha _
    obtain ⟨hb, _⟩ := portfolio_return_fp_bounds a ha
    linarith

theorem drift_return_tight_bounds_witness :
    constraints2 driftWitness ∧
    (-(1001/1000) ≤ portfolio_return_fp driftWitness ∧
      portfolio_return_fp driftWitness ≤ 1001/1000) :=
  ⟨constraints2_driftWitness,
    drift_return_tight_bounds.1 driftWitness constraints2_driftWitness⟩
